import Mathlib

/-!
Verification of the autofi cross-chain Filecoin storage backend.

The development shallowly embeds the TypeScript source:
* `backend/src/db/schema.sql` and the `Database` class (sqlite access layer),
* the Express storage router (`POST /api/initiate-storage`,
  `GET /api/files/:userAddress`, `GET /api/download/:commp`),
* `UploadService.initiateUpload` as sketched by the repository's own
  `ARCHITECTURE-SIMPLIFIED.md` (the upload service is documented there;
  its behaviour is: validate payment fields, upload to Filecoin immediately,
  then insert the metadata row),
* the SDK client `SynapseStorageClient.uploadFile`,
* the pre-poll settlement status check of the OnlySwaps example, and
* `SynapseService` connection initialisation.

External collaborators (the Synapse storage network, the OnlySwaps
settlement system, hashing) are passed in as oracle functions, and each
handler additionally returns the list of external calls it performed, so
ordering and call-count properties can be stated about the traces.
-/

namespace AutoFi

/-- One row of the `user_files` table (`schema.sql` / `UserFile` in
`database.ts`).  `NOT NULL` columns are plain fields; nullable columns are
`Option`s. -/
structure UserFile where
  id : String
  user_address : String
  file_name : String
  file_size : Nat
  file_hash : String
  commp : Option String
  provider_id : Option String
  bridge_request_id : Option String
  payment_amount : Option String
  uploaded_at : Option Nat
deriving DecidableEq, Repr

/-- The argument of `Database.createUserFile`
(`Omit<UserFile, 'uploaded_at'>`). -/
structure NewUserFile where
  id : String
  user_address : String
  file_name : String
  file_size : Nat
  file_hash : String
  commp : Option String
  provider_id : Option String
  bridge_request_id : Option String
  payment_amount : Option String
deriving DecidableEq, Repr

/-- The durable state: the ordered rows of the single `user_files` table. -/
abbrev DB := List UserFile

/-- Lowercasing as JS `toLowerCase()`, written over the character data so
that it evaluates by `decide`. -/
def strToLower (s : String) : String := ⟨s.data.map Char.toLower⟩

/-- JS `startsWith`, written over the character data. -/
def strStarts (s p : String) : Bool := p.data.isPrefixOf s.data

/-- Dropping a prefix of characters, written over the character data. -/
def strDrop (s : String) (n : Nat) : String := ⟨s.data.drop n⟩

/-- String concatenation, written over the character data. -/
def strApp (a b : String) : String := ⟨a.data ++ b.data⟩

/-- The row actually inserted by `createUserFile`: the caller's fields with
`uploaded_at` bound to `null` (the INSERT passes `null` explicitly). -/
def NewUserFile.asRow (f : NewUserFile) : UserFile :=
  { id := f.id, user_address := f.user_address, file_name := f.file_name,
    file_size := f.file_size, file_hash := f.file_hash, commp := f.commp,
    provider_id := f.provider_id, bridge_request_id := f.bridge_request_id,
    payment_amount := f.payment_amount, uploaded_at := none }

/-- Embeds `Database.createUserFile`: a plain INSERT.  The only uniqueness sqlite
enforces is the PRIMARY KEY on `id` (see `schema.sql`); a duplicate `id`
rejects the insert, everything else is accepted. -/
def createUserFile (db : DB) (f : NewUserFile) : Except String DB :=
  if db.any (fun r => r.id = f.id) then
    .error ("UNIQUE constraint failed: user_files.id")
  else
    .ok (db ++ [f.asRow])

/-- Embeds `Database.getUserFile`: `SELECT * FROM user_files WHERE id = ?` (first
matching row or null). -/
def getUserFile (db : DB) (i : String) : Option UserFile :=
  db.find? (fun r => r.id = i)

/-- Embeds `Database.getFileByCommp`: `SELECT * FROM user_files WHERE commp = ?`. -/
def getFileByCommp (db : DB) (c : String) : Option UserFile :=
  db.find? (fun r => r.commp = some c)

/-- The argument of `Database.updateUserFile`
(`Partial<Pick<UserFile, 'commp' | 'provider_id' | 'uploaded_at'>>`):
an outer `none` means the key is absent from the update, an inner value is
what the column is set to. -/
structure FileUpdates where
  commp : Option (Option String)
  provider_id : Option (Option String)
  uploaded_at : Option (Option Nat)
deriving DecidableEq, Repr

/-- Whether `updateUserFile` would build an empty SET clause. -/
def FileUpdates.isEmpty (u : FileUpdates) : Bool :=
  u.commp = none && u.provider_id = none && u.uploaded_at = none

/-- Apply the SET clause of `updateUserFile` to one row. -/
def applyFileUpdates (r : UserFile) (u : FileUpdates) : UserFile :=
  { r with
    commp := u.commp.getD r.commp,
    provider_id := u.provider_id.getD r.provider_id,
    uploaded_at := u.uploaded_at.getD r.uploaded_at }

/-- Embeds `Database.updateUserFile`: builds a SET clause from the supplied keys and
runs ``UPDATE user_files SET ... WHERE id = ?``; when no key is supplied it
resolves without touching the database.  The boolean reports whether a
`db.run` write was issued. -/
def updateUserFile (db : DB) (i : String) (u : FileUpdates) : DB × Bool :=
  if u.isEmpty then
    (db, false)
  else
    (db.map (fun r => if r.id = i then applyFileUpdates r u else r), true)

/-- The sort key of `ORDER BY uploaded_at DESC`: sqlite sorts NULLs before
every integer in ascending order, hence after every integer in descending
order. -/
def uploadedKey : Option Nat → Int
  | none => -1
  | some n => (n : Int)

/-- Whether `a` may come before `b` under `ORDER BY uploaded_at DESC`. -/
def uploadedDesc (a b : UserFile) : Bool :=
  uploadedKey b.uploaded_at ≤ uploadedKey a.uploaded_at

/-- Insert into a descending-ordered list (helper for the ORDER BY). -/
def insertDesc (a : UserFile) : List UserFile → List UserFile
  | [] => [a]
  | b :: l => if uploadedDesc a b then a :: b :: l else b :: insertDesc a l

/-- The ordering `ORDER BY uploaded_at DESC` applies to a row set. -/
def sortDesc : List UserFile → List UserFile
  | [] => []
  | a :: l => insertDesc a (sortDesc l)

/-- Embeds `Database.getUserFiles`:
`SELECT * FROM user_files WHERE user_address = ? ORDER BY uploaded_at DESC`. -/
def getUserFiles (db : DB) (addr : String) : List UserFile :=
  sortDesc (db.filter (fun r => r.user_address = addr))

theorem mem_insertDesc {a b : UserFile} {l : List UserFile} :
    a ∈ insertDesc b l ↔ a = b ∨ a ∈ l := by
  induction l with
  | nil => simp [insertDesc]
  | cons c l ih =>
    by_cases h : uploadedDesc b c
    · simp [insertDesc, h]
    · simp [insertDesc, h, ih, or_comm, or_assoc, or_left_comm]

theorem mem_sortDesc {a : UserFile} {l : List UserFile} :
    a ∈ sortDesc l ↔ a ∈ l := by
  induction l with
  | nil => simp [sortDesc]
  | cons b l ih => simp [sortDesc, mem_insertDesc, ih]

theorem mem_getUserFiles {db : DB} {addr : String} {r : UserFile} :
    r ∈ getUserFiles db addr ↔ r ∈ db ∧ r.user_address = addr := by
  simp [getUserFiles, mem_sortDesc, List.mem_filter, decide_eq_true_iff]

/-- One call from the backend to an external collaborator, recorded in
the order the calls are issued. -/
inductive Event where
  /-- A TransferWatcher settlement wait (`OnlySwaps.waitForExecution`)
  for the given transfer reference. -/
  | settlementWait (ref : String)
  /-- A ContentStore put: `SynapseService.uploadFile`, i.e. a Synapse
  `storage.upload` of the payload on behalf of the owner. -/
  | storagePut (owner fileName : String) (content : List Nat)
  /-- A ContentStore get: `SynapseService.downloadFile`. -/
  | storageGet (commp : String)
  /-- A successful `Database.createUserFile` INSERT of the given row. -/
  | dbInsert (f : NewUserFile)
deriving DecidableEq, Repr

/-- Is the event a storage write? -/
def Event.isPut : Event → Bool
  | .storagePut _ _ _ => true
  | _ => false

/-- Is the event a settlement wait? -/
def Event.isWait : Event → Bool
  | .settlementWait _ => true
  | _ => false

/-- Is the event a storage read? -/
def Event.isGet : Event → Bool
  | .storageGet _ => true
  | _ => false

/-- Is the event a database insert? -/
def Event.isInsert : Event → Bool
  | .dbInsert _ => true
  | _ => false

/-- The storage network's answer to one `put`: the content address (CommP)
and the provider reference, or a thrown upload error.  Passed to the
handlers as an oracle. -/
abbrev PutOracle := List Nat → Except String (String × String)

/-- The digest `upload.ts` records as `file_hash`, abstracted as an
oracle (its computation lives in the upload service, outside the router). -/
abbrev HashOracle := List Nat → String

/-- The parameters `routes/storage.ts` hands to
`uploadService.initiateUpload` after validation. -/
structure UploadParams where
  fileBuffer : List Nat
  fileName : String
  userAddress : String
  fileId : String
  bridgeRequestId : String
  paymentAmount : String
deriving DecidableEq, Repr

/-- Embeds `UploadService.initiateUpload`, as the repository documents it in
`ARCHITECTURE-SIMPLIFIED.md` (the flow is: validate that the bridge payment
fields are present, upload to Filecoin immediately via
`synapse.uploadFile`, then store the metadata row with the payment info via
`db.createUserFile`).  Note there is no settlement wait, no idempotency
lookup, and no record is written before the upload.  Returns the new
database state (or the thrown error) together with the external calls
made. -/
def initiateUpload (putO : PutOracle) (hashO : HashOracle) (db : DB)
    (p : UploadParams) : Except String DB × List Event :=
  if p.bridgeRequestId = ("") ∨ p.paymentAmount = ("") then
    (.error ("Payment required"), [])
  else
    match putO p.fileBuffer with
    | .error e => (.error e, [.storagePut p.userAddress p.fileName p.fileBuffer])
    | .ok (commp, providerId) =>
      let f : NewUserFile :=
        { id := p.fileId, user_address := p.userAddress,
          file_name := p.fileName, file_size := p.fileBuffer.length,
          file_hash := hashO p.fileBuffer, commp := some commp,
          provider_id := some providerId,
          bridge_request_id := some p.bridgeRequestId,
          payment_amount := some p.paymentAmount }
      match createUserFile db f with
      | .error e => (.error e, [.storagePut p.userAddress p.fileName p.fileBuffer])
      | .ok db2 =>
        (.ok db2,
         [.storagePut p.userAddress p.fileName p.fileBuffer, .dbInsert f])

/-- The multipart request `POST /api/initiate-storage` receives: `req.file`
(buffer and original name) and the `req.body` string fields.  `none` models
an absent field; an empty string is falsy in the router's checks exactly
like an absent one. -/
structure InitiateRequest where
  file : Option (List Nat × String)
  userAddress : Option String
  bridgeRequestId : Option String
  paymentAmount : Option String
deriving DecidableEq, Repr

/-- A JS-falsy optional string field (absent or empty). -/
def falsy : Option String → Bool
  | none => true
  | some s => s = ("")

/-- The JSON body of the `initiate-storage` response. -/
inductive InitResp where
  /-- An error answer: a validation 400 or the 500 of the catch block. -/
  | err (error : String)
  /-- The success answer carrying fileId, status and message. -/
  | ok (fileId status message : String)
deriving DecidableEq, Repr

/-- What one `initiate-storage` request produced: the HTTP status, the
body, the database afterwards and the external calls made. -/
structure IngestOutcome where
  status : Nat
  body : InitResp
  db : DB
  events : List Event
deriving DecidableEq, Repr

/-- Embeds `POST /api/initiate-storage` (`createStorageRouter` in
`routes/storage.ts`): validate the four fields in order, lowercase the
address, draw a fresh uuid (`fileId`, supplied here by the caller of the
model), run `initiateUpload`, and answer `{fileId, status: 'completed'}`;
a thrown error is caught and answered as a 500. -/
def initiateStorage (putO : PutOracle) (hashO : HashOracle) (db : DB)
    (freshId : String) (r : InitiateRequest) : IngestOutcome :=
  match r.file with
  | none => ⟨400, .err ("No file provided"), db, []⟩
  | some (buf, origName) =>
    if falsy r.userAddress then
      ⟨400, .err ("userAddress is required"), db, []⟩
    else if falsy r.bridgeRequestId then
      ⟨400,
       .err ("bridgeRequestId is required - payment must be made before upload"),
       db, []⟩
    else if falsy r.paymentAmount then
      ⟨400, .err ("paymentAmount is required"), db, []⟩
    else
      let normalizedAddress := strToLower (r.userAddress.getD (""))
      let fileName := if origName = ("") then ("unnamed") else origName
      let p : UploadParams :=
        { fileBuffer := buf, fileName := fileName,
          userAddress := normalizedAddress, fileId := freshId,
          bridgeRequestId := r.bridgeRequestId.getD (""),
          paymentAmount := r.paymentAmount.getD ("") }
      match initiateUpload putO hashO db p with
      | (.error e, evs) => ⟨500, .err e, db, evs⟩
      | (.ok db2, evs) =>
        ⟨200, .ok freshId ("completed") ("File uploaded successfully"),
         db2, evs⟩

/-- The storage network's answer to one `get` (`synapse.download`):
the bytes, or a thrown download error.  Passed as an oracle. -/
abbrev GetOracle := String → Except String (List Nat)

/-- The response of `GET /api/download/:commp`. -/
inductive DlResp where
  /-- An error answer: the 404 for a missing record or the 500 catch. -/
  | err (error : String)
  /-- The streamed bytes with the Content-Disposition file name. -/
  | bytes (data : List Nat) (fileName : String)
deriving DecidableEq, Repr

/-- Embeds `GET /api/download/:commp`: look the record up by content address
first; when absent answer 404 without calling the storage network, else
delegate to `synapseService.downloadFile` and stream the bytes (a thrown
download error is caught as a 500). -/
def downloadHandler (getO : GetOracle) (db : DB) (commp : String) :
    (Nat × DlResp) × List Event :=
  match getFileByCommp db commp with
  | none => ((404, .err ("File not found")), [])
  | some f =>
    match getO commp with
    | .error e => ((500, .err e), [.storageGet commp])
    | .ok data => ((200, .bytes data f.file_name), [.storageGet commp])

/-- One entry of the `GET /api/files/:userAddress` response (the field
renaming the router applies to a `user_files` row). -/
structure FileSummary where
  id : String
  fileName : String
  fileSize : Nat
  fileHash : String
  commp : Option String
  providerId : Option String
  paymentAmount : Option String
  bridgeRequestId : Option String
  uploadedAt : Option Nat
deriving DecidableEq, Repr

/-- The router's `files.map (f => ...)` projection. -/
def toFileSummary (f : UserFile) : FileSummary :=
  { id := f.id, fileName := f.file_name, fileSize := f.file_size,
    fileHash := f.file_hash, commp := f.commp, providerId := f.provider_id,
    paymentAmount := f.payment_amount,
    bridgeRequestId := f.bridge_request_id, uploadedAt := f.uploaded_at }

/-- Embeds `GET /api/files/:userAddress`: lowercase the path parameter, query
`getUserFiles`, and answer the projected rows. -/
def listFilesHandler (db : DB) (userAddress : String) :
    Nat × List FileSummary :=
  (200, (getUserFiles db (strToLower userAddress)).map toFileSummary)

/-- Embeds `PAYMENT_PER_UPLOAD_USDFC = parseUnits of 0.1 at 18 decimals` from the SDK's
`constants.ts`: 0.1 USDFC in 18-decimal base units. -/
def PAYMENT_PER_UPLOAD_USDFC : Nat := 100000000000000000

/-- What the SDK client's upload call produced for its caller. -/
inductive ClientResult where
  /-- The client threw (upload failed, non-2xx backend answer). -/
  | thrown (msg : String)
  /-- The parsed `UploadResult` body of a 2xx backend answer. -/
  | result (body : InitResp)
deriving DecidableEq, Repr

/-- Embeds `SynapseStorageClient.uploadFile` (SDK `client.ts`).  In the source the
bridging step is disabled: `bridgePayment` — the only place that would call
`waitForExecution` — is commented out behind the hardcoded
`bridgeRequestId = '0x1234567890'` (the code says
SKIPPING BRIDGING FOR NOW / ENABLE LATER), so the client posts the file to
`POST /api/initiate-storage` at once.  A non-2xx backend answer is thrown,
a 2xx answer is returned as the parsed `UploadResult`. -/
def clientUploadFile (putO : PutOracle) (hashO : HashOracle) (db : DB)
    (freshId : String) (file : List Nat) (fileName : String)
    (userAddress : String) : ClientResult × DB × List Event :=
  let bridgeRequestId := ("0x1234567890")
  let req : InitiateRequest :=
    { file := some (file, fileName), userAddress := some userAddress,
      bridgeRequestId := some bridgeRequestId,
      paymentAmount := some (toString PAYMENT_PER_UPLOAD_USDFC) }
  let o := initiateStorage putO hashO db freshId req
  if o.status = 200 then (.result o.body, o.db, o.events)
  else (.thrown ("Upload failed"), o.db, o.events)

/-- The terminal flags one settlement status query reports:
`fetchRequestParams(...).executed` and
`fetchFulfillmentReceipt(...).fulfilled`. -/
structure SwapStatus where
  executed : Bool
  fulfilled : Bool
deriving DecidableEq, Repr

/-- An observable action of the settlement wait. -/
inductive WaitEvent where
  /-- One status query against the settlement system. -/
  | statusQuery
  /-- One poll-interval sleep. -/
  | sleep (ms : Nat)
deriving DecidableEq, Repr

/-- How the settlement wait ended. -/
inductive WaitOutcome where
  /-- The first status query was already terminal: returned at once. -/
  | immediate (s : SwapStatus)
  /-- The poll loop (`waitForExecution`) decided, with its result status. -/
  | polled (s : Except String SwapStatus)
deriving Repr

/-- The settlement wait of the OnlySwaps example (`main`, the pre-poll
status check before `waitForExecution`): query the current status once;
if it already reports `executed` or `fulfilled`, return immediately —
before any `waitForExecution` polling and hence before any poll-interval
sleep.  Otherwise (including when the initial query throws) fall through
to the poll loop, which is passed in abstractly together with the events
it performs.  `firstStatus = none` models the initial query throwing. -/
def awaitSwap (firstStatus : Option SwapStatus)
    (pollLoop : Unit → Except String SwapStatus × List WaitEvent) :
    WaitOutcome × List WaitEvent :=
  match firstStatus with
  | some st =>
    if st.executed || st.fulfilled then
      (.immediate st, [.statusQuery])
    else
      let (res, evs) := pollLoop ()
      (.polled res, .statusQuery :: evs)
  | none =>
    let (res, evs) := pollLoop ()
    (.polled res, .statusQuery :: evs)

/-- The mutable fields of `SynapseService` (`services/synapse.ts`).  The
`synapse` field holds the connection handle (abstracted as a number) or
null. -/
structure SynapseService where
  synapse : Option Nat
  privateKey : String
  backendAddress : String
  isInitialized : Bool
deriving DecidableEq, Repr

/-- The constructor `new SynapseService(privateKey, backendAddress)`. -/
def SynapseService.mk0 (pk addr : String) : SynapseService :=
  { synapse := none, privateKey := pk, backendAddress := addr,
    isInitialized := false }

/-- The `https:// → wss://` auto-conversion `SynapseService` applies to
the configured RPC URL. -/
def convertRpc (url : String) : String :=
  if strStarts url ("https://") then strApp ("wss://") (strDrop url 8) else url

/-- Embeds the initialize method of `SynapseService`: if the service is already initialised,
return immediately; otherwise resolve the RPC URL (environment variable or
the mainnet default, HTTPS auto-converted), reject a non-WebSocket URL,
create the Synapse connection (`newConn` abstracts the handle
`Synapse.create` yields) and mark the service initialised.  The returned
number counts the connections created by this call. -/
def initSvc (s : SynapseService) (envRpc : Option String) (newConn : Nat) :
    Except String (SynapseService × Nat) :=
  if s.isInitialized then
    .ok (s, 0)
  else
    let rpcURL := convertRpc (envRpc.getD ("wss://api.node.glif.io/rpc/v1"))
    if ¬ strStarts rpcURL ("wss://") then
      .error ("Filecoin requires WebSocket RPC (wss://)")
    else
      .ok ({ s with synapse := some newConn, isInitialized := true }, 1)

/-- The row a successful ingest inserts, spelled out: fresh id, lowercased
address, the multer file name (or the `unnamed` fallback), the payload
size and digest, the upload result, and the payment fields. -/
def ingestRow (hashO : HashOracle) (freshId : String) (buf : List Nat)
    (origName A br pa commp prov : String) : NewUserFile :=
  { id := freshId, user_address := strToLower A,
    file_name := if origName = ("") then ("unnamed") else origName,
    file_size := buf.length, file_hash := hashO buf, commp := some commp,
    provider_id := some prov, bridge_request_id := some br,
    payment_amount := some pa }

/-- Helper: a fully valid `initiate-storage` request runs straight through —
one storage write, then one insert of `ingestRow`, answered 200 with the
fresh id. -/
theorem initiateStorage_valid (putO : PutOracle) (hashO : HashOracle)
    (db : DB) (freshId : String) (buf : List Nat)
    (origName A br pa commp prov : String)
    (hA : ¬ A = ("")) (hbr : ¬ br = ("")) (hpa : ¬ pa = (""))
    (hput : putO buf = .ok (commp, prov))
    (hfresh : db.any (fun r => r.id = freshId) = false) :
    initiateStorage putO hashO db freshId
        ⟨some (buf, origName), some A, some br, some pa⟩ =
      ⟨200, .ok freshId ("completed") ("File uploaded successfully"),
       db ++ [(ingestRow hashO freshId buf origName A br pa commp prov).asRow],
       [.storagePut (strToLower A)
          (if origName = ("") then ("unnamed") else origName) buf,
        .dbInsert (ingestRow hashO freshId buf origName A br pa commp prov)]⟩ := by
  simp only [initiateStorage, falsy, decide_eq_true_eq, hA, hbr, hpa,
    decide_False, Bool.false_eq_true, if_false, Option.getD_some]
  simp only [initiateUpload, hA, hbr, hpa, or_self, if_false, hput,
    createUserFile, hfresh, Bool.false_eq_true, ingestRow, or_false, ite_false]

/-- A storage-network double whose put always succeeds with a fixed
address and provider. -/
def putOk : PutOracle := fun _ => .ok (("bafy-commp-1"), ("prov-1"))

/-- A hashing double. -/
def hash0 : HashOracle := fun _ => ("deadbeef")

/-- The payload bytes of the word hello. -/
def helloBytes : List Nat := [104, 101, 108, 108, 111]

/-- A storage-network double whose get always succeeds with fixed bytes. -/
def getBytes : GetOracle := fun _ => .ok [1, 2, 3]

/-- A stored row fixture whose content address is `c-1`. -/
def row0 : UserFile :=
  { id := ("a"), user_address := ("0xabc"), file_name := ("a.txt"),
    file_size := 5, file_hash := ("h"), commp := some ("c-1"),
    provider_id := some ("p"), bridge_request_id := some ("tx-1"),
    payment_amount := some ("0.1"), uploaded_at := none }

/-- C5: input validation fails fast with no side effects — whenever the
file payload is absent or `userAddress`, `bridgeRequestId` or
`paymentAmount` is absent/empty, `POST /api/initiate-storage` answers 400
with the field-specific message of the first failing check, the record
store is untouched and no external call is made. -/
theorem c5_validation_fails_fast (putO : PutOracle) (hashO : HashOracle)
    (db : DB) (freshId : String) (r : InitiateRequest)
    (h : r.file = none ∨ falsy r.userAddress = true ∨
         falsy r.bridgeRequestId = true ∨ falsy r.paymentAmount = true) :
    (initiateStorage putO hashO db freshId r).status = 400 ∧
    (initiateStorage putO hashO db freshId r).db = db ∧
    (initiateStorage putO hashO db freshId r).events = [] ∧
    (r.file = none →
      (initiateStorage putO hashO db freshId r).body =
        .err ("No file provided")) ∧
    (r.file ≠ none → falsy r.userAddress = true →
      (initiateStorage putO hashO db freshId r).body =
        .err ("userAddress is required")) ∧
    (r.file ≠ none → falsy r.userAddress = false →
        falsy r.bridgeRequestId = true →
      (initiateStorage putO hashO db freshId r).body =
        .err ("bridgeRequestId is required - payment must be made before upload")) ∧
    (r.file ≠ none → falsy r.userAddress = false →
        falsy r.bridgeRequestId = false → falsy r.paymentAmount = true →
      (initiateStorage putO hashO db freshId r).body =
        .err ("paymentAmount is required")) := by
  obtain ⟨file, ua, br, pa⟩ := r
  cases file with
  | none => simp [initiateStorage]
  | some fb =>
    obtain ⟨buf, origName⟩ := fb
    simp only [Option.some.injEq, reduceCtorEq, false_or] at h
    rcases h with h1 | h2 | h3
    · simp [initiateStorage, h1]
    · rcases hua : falsy ua with _ | _
      · simp [initiateStorage, hua, h2]
      · simp [initiateStorage, hua]
    · rcases hua : falsy ua with _ | _
      · rcases hbr : falsy br with _ | _
        · simp [initiateStorage, hua, hbr, h3]
        · simp [initiateStorage, hua, hbr]
      · simp [initiateStorage, hua]

/-- C5 witness: a request with no file, then one with an empty
`userAddress`, evaluated concretely. -/
theorem c5_validation_fails_fast_witness :
    (initiateStorage putOk hash0 [] ("id-1")
        ⟨none, some ("0xA"), some ("tx-1"), some ("0.1")⟩).status = 400 ∧
    (initiateStorage putOk hash0 [] ("id-1")
        ⟨none, some ("0xA"), some ("tx-1"), some ("0.1")⟩).events = [] ∧
    (initiateStorage putOk hash0 [row0] ("id-1")
        ⟨some (helloBytes, ("a.txt")), some (""), some ("tx-1"),
         some ("0.1")⟩).body = .err ("userAddress is required") ∧
    (initiateStorage putOk hash0 [row0] ("id-1")
        ⟨some (helloBytes, ("a.txt")), some (""), some ("tx-1"),
         some ("0.1")⟩).db = [row0] :=
  ⟨(c5_validation_fails_fast putOk hash0 [] ("id-1") _ (Or.inl rfl)).1,
   (c5_validation_fails_fast putOk hash0 [] ("id-1") _ (Or.inl rfl)).2.2.1,
   ((c5_validation_fails_fast putOk hash0 [row0] ("id-1") _
      (Or.inr (Or.inl (by decide)))).2.2.2.2.1 (by decide) (by decide)),
   (c5_validation_fails_fast putOk hash0 [row0] ("id-1") _
      (Or.inr (Or.inl (by decide)))).2.1⟩

/-- C6: retrieval of a content address with no matching record answers 404
without any storage-network call; with a matching record it delegates to
the storage network (exactly one get) and streams the bytes. -/
theorem c6_retrieval_not_found_no_call (getO : GetOracle) (db : DB)
    (commp : String) :
    (getFileByCommp db commp = none →
      downloadHandler getO db commp = ((404, .err ("File not found")), [])) ∧
    (∀ f data, getFileByCommp db commp = some f → getO commp = .ok data →
      downloadHandler getO db commp =
        ((200, .bytes data f.file_name), [.storageGet commp])) := by
  constructor
  · intro h
    simp [downloadHandler, h]
  · intro f data hf hg
    simp [downloadHandler, hf, hg]

/-- C6 witness: an unknown address against an empty store, and a known
address against a store holding `row0`, evaluated concretely. -/
theorem c6_retrieval_not_found_no_call_witness :
    downloadHandler getBytes [] ("c-404") =
      ((404, DlResp.err ("File not found")), []) ∧
    downloadHandler getBytes [row0] ("c-1") =
      ((200, DlResp.bytes [1, 2, 3] ("a.txt")), [Event.storageGet ("c-1")]) :=
  ⟨(c6_retrieval_not_found_no_call getBytes [] ("c-404")).1 (by decide),
   (c6_retrieval_not_found_no_call getBytes [row0] ("c-1")).2 row0 [1, 2, 3]
     (by decide) rfl⟩

/-- C7: when the first settlement status query already reports a terminal
state (executed or fulfilled), the wait returns immediately with exactly
that one query in its trace — no poll-interval sleep and no poll loop run,
whatever the poll loop would have done. -/
theorem c7_first_query_terminal_returns_immediately (st : SwapStatus)
    (pollLoop : Unit → Except String SwapStatus × List WaitEvent)
    (h : (st.executed || st.fulfilled) = true) :
    awaitSwap (some st) pollLoop = (.immediate st, [.statusQuery]) := by
  simp [awaitSwap, h]

/-- C7 witness: an executed-only first status against a poll loop that
would sleep five seconds, evaluated concretely. -/
theorem c7_first_query_terminal_returns_immediately_witness :
    awaitSwap (some ⟨true, false⟩)
        (fun _ => (.error ("unused"), [.sleep 5000])) =
      (.immediate ⟨true, false⟩, [.statusQuery]) :=
  c7_first_query_terminal_returns_immediately ⟨true, false⟩ _ (by decide)

/-- C8: owner addresses are canonicalised to lowercase at the public
interface — a successful ingest stores the lowercase form of the supplied
`userAddress`, the list endpoint lowercases its path argument before
querying, and hence a file ingested under an address is returned when
listing any case variant of that address (a case variant being an address
with the same lowercasing). -/
theorem c8_owner_addresses_lowercased (putO : PutOracle) (hashO : HashOracle)
    (db : DB) (freshId : String) (buf : List Nat)
    (origName A A2 br pa commp prov : String)
    (hA : ¬ A = ("")) (hbr : ¬ br = ("")) (hpa : ¬ pa = (""))
    (hput : putO buf = .ok (commp, prov))
    (hfresh : db.any (fun r => r.id = freshId) = false)
    (hvar : strToLower A2 = strToLower A) :
    (∃ r ∈ (initiateStorage putO hashO db freshId
        ⟨some (buf, origName), some A, some br, some pa⟩).db,
      r.id = freshId ∧ r.user_address = strToLower A) ∧
    (∃ s ∈ (listFilesHandler (initiateStorage putO hashO db freshId
        ⟨some (buf, origName), some A, some br, some pa⟩).db A2).2,
      s.id = freshId) := by
  rw [initiateStorage_valid putO hashO db freshId buf origName A br pa commp
    prov hA hbr hpa hput hfresh]
  constructor
  · exact ⟨(ingestRow hashO freshId buf origName A br pa commp prov).asRow,
      by simp, rfl, rfl⟩
  · refine ⟨toFileSummary
      (ingestRow hashO freshId buf origName A br pa commp prov).asRow,
      ?_, rfl⟩
    simp only [listFilesHandler, List.mem_map]
    refine ⟨(ingestRow hashO freshId buf origName A br pa commp prov).asRow,
      ?_, rfl⟩
    rw [mem_getUserFiles]
    exact ⟨by simp, by simp [ingestRow, NewUserFile.asRow, hvar]⟩

/-- C8 witness: ingest under `0xAbC` into an empty store, then list for the
case variant `0XabC`, evaluated concretely. -/
theorem c8_owner_addresses_lowercased_witness :
    (∃ r ∈ (initiateStorage putOk hash0 [] ("id-1")
        ⟨some (helloBytes, ("a.txt")), some ("0xAbC"), some ("tx-1"),
         some ("0.1")⟩).db,
      r.id = ("id-1") ∧ r.user_address = strToLower ("0xAbC")) ∧
    (∃ s ∈ (listFilesHandler (initiateStorage putOk hash0 [] ("id-1")
        ⟨some (helloBytes, ("a.txt")), some ("0xAbC"), some ("tx-1"),
         some ("0.1")⟩).db ("0XabC")).2,
      s.id = ("id-1")) :=
  c8_owner_addresses_lowercased putOk hash0 [] ("id-1") helloBytes
    ("a.txt") ("0xAbC") ("0XabC") ("tx-1") ("0.1") ("bafy-commp-1")
    ("prov-1") (by decide) (by decide) (by decide) rfl rfl (by decide)

/-- C9: `updateUserFile` only ever modifies the `commp`, `provider_id` and
`uploaded_at` columns of the row with the given id — row for row, the
updated table keeps `id`, `user_address`, `file_name`, `file_size`,
`file_hash`, `bridge_request_id` and `payment_amount`, every row with a
different id is completely unchanged, and a call supplying no updatable
field performs no database write and resolves with the table as it was. -/
theorem c9_update_touches_only_upload_columns (db : DB) (i : String)
    (u : FileUpdates) :
    (u.isEmpty = true → updateUserFile db i u = (db, false)) ∧
    List.Forall₂ (fun r r2 =>
      r2.id = r.id ∧ r2.user_address = r.user_address ∧
      r2.file_name = r.file_name ∧ r2.file_size = r.file_size ∧
      r2.file_hash = r.file_hash ∧
      r2.bridge_request_id = r.bridge_request_id ∧
      r2.payment_amount = r.payment_amount ∧
      (r.id ≠ i → r2 = r)) db (updateUserFile db i u).1 := by
  constructor
  · intro h
    simp [updateUserFile, h]
  · by_cases h : u.isEmpty
    · simp only [updateUserFile, h, if_true]
      rw [List.forall₂_same]
      intro r _
      exact ⟨rfl, rfl, rfl, rfl, rfl, rfl, rfl, fun _ => rfl⟩
    · simp only [updateUserFile, h, Bool.false_eq_true, if_false]
      rw [List.forall₂_map_right_iff, List.forall₂_same]
      intro r _
      by_cases hr : r.id = i
      · rw [if_pos hr]
        exact ⟨rfl, rfl, rfl, rfl, rfl, rfl, rfl, fun hc => absurd hr hc⟩
      · rw [if_neg hr]
        exact ⟨rfl, rfl, rfl, rfl, rfl, rfl, rfl, fun _ => rfl⟩

/-- C9 witness: an empty update on a one-row table resolves with no write,
and an update of `commp` alone keeps the other columns, evaluated
concretely. -/
theorem c9_update_touches_only_upload_columns_witness :
    updateUserFile [row0] ("a") ⟨none, none, none⟩ = ([row0], false) ∧
    List.Forall₂ (fun r r2 =>
      r2.id = r.id ∧ r2.user_address = r.user_address ∧
      r2.file_name = r.file_name ∧ r2.file_size = r.file_size ∧
      r2.file_hash = r.file_hash ∧
      r2.bridge_request_id = r.bridge_request_id ∧
      r2.payment_amount = r.payment_amount ∧
      (r.id ≠ ("a") → r2 = r)) [row0]
      (updateUserFile [row0] ("a") ⟨some (some ("c-9")), none, none⟩).1 :=
  ⟨(c9_update_touches_only_upload_columns [row0] ("a") ⟨none, none, none⟩).1
     rfl,
   (c9_update_touches_only_upload_columns [row0] ("a")
     ⟨some (some ("c-9")), none, none⟩).2⟩

/-- C10: the initialize method of `SynapseService` is idempotent — after
any successful initialisation, a further call returns immediately with the
state unchanged and creates no new Synapse connection; in particular on an
already-initialised service it is the identity and creates nothing. -/
theorem c10_initialize_idempotent (s s2 : SynapseService)
    (envRpc envRpc2 : Option String) (c c2 n : Nat)
    (h : initSvc s envRpc c = .ok (s2, n)) :
    initSvc s2 envRpc2 c2 = .ok (s2, 0) ∧
    (s.isInitialized = true → s2 = s ∧ n = 0) := by
  cases hs : s.isInitialized with
  | true =>
    simp only [initSvc, hs, if_true] at h
    obtain ⟨rfl, rfl⟩ : s = s2 ∧ 0 = n := by
      simpa using h
    simp [initSvc, hs]
  | false =>
    simp only [initSvc, hs, Bool.false_eq_true, if_false] at h
    split at h
    · exact absurd h (by simp)
    · obtain ⟨rfl, rfl⟩ :
          { s with synapse := some c, isInitialized := true } = s2 ∧ 1 = n := by
        simpa using h
      refine ⟨by simp [initSvc], ?_⟩
      intro hc
      exact absurd hc (by simp)

/-- C10 witness: a fresh service initialised with the default RPC URL,
then initialised again, evaluated concretely. -/
theorem c10_initialize_idempotent_witness :
    initSvc { synapse := some 7, privateKey := ("pk"),
              backendAddress := ("addr"), isInitialized := true }
        none 9 =
      .ok ({ synapse := some 7, privateKey := ("pk"),
             backendAddress := ("addr"), isInitialized := true }, 0) :=
  (c10_initialize_idempotent (SynapseService.mk0 ("pk") ("addr"))
    { synapse := some 7, privateKey := ("pk"), backendAddress := ("addr"),
      isInitialized := true }
    none none 7 9 1 rfl).1

/-- A storage-network double whose put always throws. -/
def putErr : PutOracle := fun _ => .error ("ProviderUnavailable")

/-- The ingest request of the idempotence scenario: owner `0xabc`, the
hello payload, the already-confirmed transfer `tx-1`. -/
def req2 : InitiateRequest :=
  ⟨some (helloBytes, ("a.txt")), some ("0xabc"), some ("tx-1"), some ("0.1")⟩

/-- Helper: a valid `initiate-storage` request whose storage write throws
is answered 500 with the store untouched — the write was attempted (one
put call) but no record was created. -/
theorem initiateStorage_putError (putO : PutOracle) (hashO : HashOracle)
    (db : DB) (freshId : String) (buf : List Nat)
    (origName A br pa e : String)
    (hA : ¬ A = ("")) (hbr : ¬ br = ("")) (hpa : ¬ pa = (""))
    (hput : putO buf = .error e) :
    initiateStorage putO hashO db freshId
        ⟨some (buf, origName), some A, some br, some pa⟩ =
      ⟨500, .err e, db,
       [.storagePut (strToLower A)
          (if origName = ("") then ("unnamed") else origName) buf]⟩ := by
  simp only [initiateStorage, falsy, decide_eq_true_eq, hA, hbr, hpa,
    decide_False, Bool.false_eq_true, if_false, Option.getD_some]
  simp only [initiateUpload, hA, hbr, hpa, or_self, if_false, hput,
    or_false, ite_false]

/-- C1: evaluated at a concrete ingest whose transfer reference was never
confirmed, the pipeline as coded performs the storage write anyway — the
client upload succeeds end to end with exactly one ContentStore put and
not a single TransferWatcher wait in its trace (bridging and its
`waitForExecution` settlement gate are commented out in `client.ts`, and
neither the router nor the upload service ever consults the settlement
system), so no `PaymentNotConfirmed` failure can ever precede a write. -/
theorem c1_storage_write_without_settlement_confirmation :
    (clientUploadFile putOk hash0 [] ("file-1") helloBytes ("hello.txt")
        ("0xAbC")).1 =
      .result (.ok ("file-1") ("completed") ("File uploaded successfully")) ∧
    (((clientUploadFile putOk hash0 [] ("file-1") helloBytes ("hello.txt")
        ("0xAbC")).2.2).filter Event.isPut).length = 1 ∧
    ((clientUploadFile putOk hash0 [] ("file-1") helloBytes ("hello.txt")
        ("0xAbC")).2.2).filter Event.isWait = [] := by decide

/-- C2 counterexample: the same owner ingesting the identical payload
twice (same confirmed transfer `tx-1`) performs TWO storage writes and the
second call answers a different result than the first — not the prior
record's result, refuting idempotence as claimed. -/
theorem c2_counterexample_two_writes_two_results :
    (((initiateStorage putOk hash0 [] ("id-1") req2).events ++
      (initiateStorage putOk hash0
        (initiateStorage putOk hash0 [] ("id-1") req2).db
        ("id-2") req2).events).filter Event.isPut).length = 2 ∧
    (initiateStorage putOk hash0 [] ("id-1") req2).body =
      .ok ("id-1") ("completed") ("File uploaded successfully") ∧
    (initiateStorage putOk hash0
        (initiateStorage putOk hash0 [] ("id-1") req2).db
        ("id-2") req2).body =
      .ok ("id-2") ("completed") ("File uploaded successfully") ∧
    (initiateStorage putOk hash0 [] ("id-1") req2).body ≠
      (initiateStorage putOk hash0
        (initiateStorage putOk hash0 [] ("id-1") req2).db
        ("id-2") req2).body := by decide

/-- C2 amended: ingestion is not idempotent — every valid ingest call
performs its own storage write under a freshly drawn id (there is no
lookup of a prior `(owner, contentHash)` record), so two calls with the
same owner, identical content and the same confirmed transfer perform two
storage writes and return two distinct fileId results. -/
theorem c2_amended_each_call_rewrites (putO : PutOracle) (hashO : HashOracle)
    (db : DB) (id1 id2 : String) (buf : List Nat)
    (origName A br pa commp prov : String)
    (hA : ¬ A = ("")) (hbr : ¬ br = ("")) (hpa : ¬ pa = (""))
    (hput : putO buf = .ok (commp, prov))
    (h1 : db.any (fun r => r.id = id1) = false)
    (h2 : db.any (fun r => r.id = id2) = false)
    (hne : id1 ≠ id2) :
    (((initiateStorage putO hashO db id1
        ⟨some (buf, origName), some A, some br, some pa⟩).events ++
      (initiateStorage putO hashO
        (initiateStorage putO hashO db id1
          ⟨some (buf, origName), some A, some br, some pa⟩).db
        id2 ⟨some (buf, origName), some A, some br, some pa⟩).events).filter
          Event.isPut).length = 2 ∧
    (initiateStorage putO hashO db id1
        ⟨some (buf, origName), some A, some br, some pa⟩).body =
      .ok id1 ("completed") ("File uploaded successfully") ∧
    (initiateStorage putO hashO
        (initiateStorage putO hashO db id1
          ⟨some (buf, origName), some A, some br, some pa⟩).db
        id2 ⟨some (buf, origName), some A, some br, some pa⟩).body =
      .ok id2 ("completed") ("File uploaded successfully") ∧
    (initiateStorage putO hashO db id1
        ⟨some (buf, origName), some A, some br, some pa⟩).body ≠
      (initiateStorage putO hashO
        (initiateStorage putO hashO db id1
          ⟨some (buf, origName), some A, some br, some pa⟩).db
        id2 ⟨some (buf, origName), some A, some br, some pa⟩).body := by
  have e1 := initiateStorage_valid putO hashO db id1 buf origName A br pa
    commp prov hA hbr hpa hput h1
  have h2b : ((db ++
      [(ingestRow hashO id1 buf origName A br pa commp prov).asRow]).any
        (fun r => r.id = id2)) = false := by
    simp [List.any_append, h2, ingestRow, NewUserFile.asRow, hne]
  have e2 := initiateStorage_valid putO hashO
    (db ++ [(ingestRow hashO id1 buf origName A br pa commp prov).asRow])
    id2 buf origName A br pa commp prov hA hbr hpa hput h2b
  simp only [e1] at e2 ⊢
  simp only [e2]
  simp [Event.isPut, hne]

/-- C2 amended witness: the two-call scenario evaluated concretely on an
empty store. -/
theorem c2_amended_each_call_rewrites_witness :
    (((initiateStorage putOk hash0 [] ("w-1")
        ⟨some (helloBytes, ("b.txt")), some ("0xowner"), some ("tx-9"),
         some ("0.1")⟩).events ++
      (initiateStorage putOk hash0
        (initiateStorage putOk hash0 [] ("w-1")
          ⟨some (helloBytes, ("b.txt")), some ("0xowner"), some ("tx-9"),
           some ("0.1")⟩).db
        ("w-2") ⟨some (helloBytes, ("b.txt")), some ("0xowner"),
          some ("tx-9"), some ("0.1")⟩).events).filter
            Event.isPut).length = 2 ∧
    (initiateStorage putOk hash0 [] ("w-1")
        ⟨some (helloBytes, ("b.txt")), some ("0xowner"), some ("tx-9"),
         some ("0.1")⟩).body =
      .ok ("w-1") ("completed") ("File uploaded successfully") ∧
    (initiateStorage putOk hash0
        (initiateStorage putOk hash0 [] ("w-1")
          ⟨some (helloBytes, ("b.txt")), some ("0xowner"), some ("tx-9"),
           some ("0.1")⟩).db
        ("w-2") ⟨some (helloBytes, ("b.txt")), some ("0xowner"),
          some ("tx-9"), some ("0.1")⟩).body =
      .ok ("w-2") ("completed") ("File uploaded successfully") ∧
    (initiateStorage putOk hash0 [] ("w-1")
        ⟨some (helloBytes, ("b.txt")), some ("0xowner"), some ("tx-9"),
         some ("0.1")⟩).body ≠
      (initiateStorage putOk hash0
        (initiateStorage putOk hash0 [] ("w-1")
          ⟨some (helloBytes, ("b.txt")), some ("0xowner"), some ("tx-9"),
           some ("0.1")⟩).db
        ("w-2") ⟨some (helloBytes, ("b.txt")), some ("0xowner"),
          some ("tx-9"), some ("0.1")⟩).body :=
  c2_amended_each_call_rewrites putOk hash0 [] ("w-1") ("w-2") helloBytes
    ("b.txt") ("0xowner") ("tx-9") ("0.1") ("bafy-commp-1") ("prov-1")
    (by decide) (by decide) (by decide) rfl rfl rfl (by decide)

/-- A stored-record fixture referencing transfer `tx-3`. -/
def fileA : NewUserFile :=
  { id := ("rec-a"), user_address := ("0xabc"), file_name := ("a.txt"),
    file_size := 5, file_hash := ("h"), commp := some ("commp-a"),
    provider_id := some ("p"), bridge_request_id := some ("tx-3"),
    payment_amount := some ("0.1") }

/-- A second stored-record fixture referencing the same transfer `tx-3`
under a different id. -/
def fileB : NewUserFile :=
  { fileA with id := ("rec-b"), commp := some ("commp-b") }

/-- C3 counterexample: the persistence layer accepts a second stored
record for the transfer reference `tx-3` — both inserts succeed and the
resulting table holds two records with `bridge_request_id = tx-3` and a
set content address, so no uniqueness constraint on the transfer
reference exists and a replay is not rejected. -/
theorem c3_counterexample_replay_accepted :
    createUserFile [] fileA = .ok [fileA.asRow] ∧
    createUserFile [fileA.asRow] fileB = .ok [fileA.asRow, fileB.asRow] ∧
    ([fileA.asRow, fileB.asRow].filter (fun r =>
        r.bridge_request_id = some ("tx-3") && !(r.commp = none))).length
      = 2 := by
  refine ⟨rfl, rfl, by decide⟩

/-- C3 amended: the only uniqueness the persistence layer enforces is the
primary key on `id` — an insert succeeds exactly when its id is fresh,
regardless of whether a stored record already references the same
transfer reference, so two stored ingestion records may share one
transferRef and no `TransferAlreadyRedeemed` rejection exists at the
schema level. -/
theorem c3_amended_only_id_unique (db : DB) (f : NewUserFile) :
    createUserFile db f = .ok (db ++ [f.asRow]) ↔
      db.any (fun r => r.id = f.id) = false := by
  constructor
  · intro h
    by_cases hc : db.any (fun r => r.id = f.id)
    · rw [createUserFile, if_pos hc] at h
      exact absurd h (by simp)
    · simpa using hc
  · intro h
    rw [createUserFile, if_neg (by simp [h])]

/-- C3 amended witness: the duplicate-transfer insert of the
counterexample scenario succeeds, via the amended equivalence. -/
theorem c3_amended_only_id_unique_witness :
    createUserFile [fileA.asRow] fileB = .ok [fileA.asRow, fileB.asRow] :=
  (c3_amended_only_id_unique [fileA.asRow] fileB).mpr (by decide)

/-- Does every storage write of the trace have a database insert strictly
before it?  First argument: whether an insert was already seen. -/
def insertPrecedesPuts : Bool → List Event → Bool
  | _, [] => true
  | seen, e :: l =>
    if e.isPut then seen && insertPrecedesPuts seen l
    else insertPrecedesPuts (seen || e.isInsert) l

/-- C4 counterexample: on a concrete valid ingest the coordinator's trace
starts with the storage write — no record at all (pending or otherwise)
is persisted before `ContentStore.put`, refuting the claimed
pending-record-first discipline. -/
theorem c4_counterexample_no_record_before_write :
    (initiateStorage putOk hash0 [] ("id-1") req2).status = 200 ∧
    insertPrecedesPuts false
      (initiateStorage putOk hash0 [] ("id-1") req2).events = false := by
  decide

/-- C4 amended: the coordinator persists the record only after the
storage write — a valid ingest's trace is exactly the put followed by the
insert of a row whose content address is set to the put's result and
whose `uploaded_at` is null, and when the storage write throws, the store
is left untouched (no pending record ever exists before or without a
successful write). -/
theorem c4_amended_record_follows_write (putO : PutOracle)
    (hashO : HashOracle) (db : DB) (freshId : String) (buf : List Nat)
    (origName A br pa : String)
    (hA : ¬ A = ("")) (hbr : ¬ br = ("")) (hpa : ¬ pa = (""))
    (hfresh : db.any (fun r => r.id = freshId) = false) :
    (∀ commp prov, putO buf = .ok (commp, prov) →
      (initiateStorage putO hashO db freshId
          ⟨some (buf, origName), some A, some br, some pa⟩).events =
        [.storagePut (strToLower A)
           (if origName = ("") then ("unnamed") else origName) buf,
         .dbInsert (ingestRow hashO freshId buf origName A br pa commp prov)] ∧
      (initiateStorage putO hashO db freshId
          ⟨some (buf, origName), some A, some br, some pa⟩).db =
        db ++ [(ingestRow hashO freshId buf origName A br pa commp prov).asRow] ∧
      (ingestRow hashO freshId buf origName A br pa commp prov).asRow.commp
        = some commp ∧
      (ingestRow hashO freshId buf origName A br pa commp
        prov).asRow.uploaded_at = none) ∧
    (∀ e, putO buf = .error e →
      (initiateStorage putO hashO db freshId
          ⟨some (buf, origName), some A, some br, some pa⟩).db = db ∧
      (initiateStorage putO hashO db freshId
          ⟨some (buf, origName), some A, some br, some pa⟩).status = 500 ∧
      (initiateStorage putO hashO db freshId
          ⟨some (buf, origName), some A, some br, some pa⟩).events =
        [.storagePut (strToLower A)
           (if origName = ("") then ("unnamed") else origName) buf]) := by
  constructor
  · intro commp prov hput
    rw [initiateStorage_valid putO hashO db freshId buf origName A br pa
      commp prov hA hbr hpa hput hfresh]
    exact ⟨rfl, rfl, rfl, rfl⟩
  · intro e hput
    rw [initiateStorage_putError putO hashO db freshId buf origName A br
      pa e hA hbr hpa hput]
    exact ⟨rfl, rfl, rfl⟩

/-- C4 amended witness: a succeeding and a throwing storage write,
evaluated concretely on an empty store. -/
theorem c4_amended_record_follows_write_witness :
    (initiateStorage putOk hash0 [] ("id-1")
        ⟨some (helloBytes, ("a.txt")), some ("0xabc"), some ("tx-1"),
         some ("0.1")⟩).events =
      [.storagePut ("0xabc") ("a.txt") helloBytes,
       .dbInsert (ingestRow hash0 ("id-1") helloBytes ("a.txt") ("0xabc")
         ("tx-1") ("0.1") ("bafy-commp-1") ("prov-1"))] ∧
    (initiateStorage putErr hash0 [] ("id-1")
        ⟨some (helloBytes, ("a.txt")), some ("0xabc"), some ("tx-1"),
         some ("0.1")⟩).db = [] ∧
    (initiateStorage putErr hash0 [] ("id-1")
        ⟨some (helloBytes, ("a.txt")), some ("0xabc"), some ("tx-1"),
         some ("0.1")⟩).status = 500 := by
  refine ⟨?_, ?_, ?_⟩
  · have h := ((c4_amended_record_follows_write putOk hash0 [] ("id-1")
      helloBytes ("a.txt") ("0xabc") ("tx-1") ("0.1") (by decide)
      (by decide) (by decide) rfl).1 ("bafy-commp-1") ("prov-1") rfl).1
    simpa using h
  · exact ((c4_amended_record_follows_write putErr hash0 [] ("id-1")
      helloBytes ("a.txt") ("0xabc") ("tx-1") ("0.1") (by decide)
      (by decide) (by decide) rfl).2 ("ProviderUnavailable") rfl).1
  · exact ((c4_amended_record_follows_write putErr hash0 [] ("id-1")
      helloBytes ("a.txt") ("0xabc") ("tx-1") ("0.1") (by decide)
      (by decide) (by decide) rfl).2 ("ProviderUnavailable") rfl).2.1

end AutoFi
